import Mathlib

/-!
# Verification of the MATAT terminal/CLI session manager

A shallow embedding of the backend server's terminal/CLI session core
(class `MatatRealServer` in the backend source file): the session
registry (`terminals` map), the CLI overlay (`cliProcesses` map), the
connection gateway's socket handlers, and the availability prober
(`checkCLIAvailability`).

The JavaScript `Map` objects are embedded as association lists with the
same semantics (`set` updates the existing entry in place or appends a
fresh one; `delete` removes the entry; iteration follows insertion
order).  The event loop is embedded as a step function over messages: a
message is either an inbound socket event (`terminal:create`,
`terminal:input`, `terminal:resize`, `cli:start`, `cli:command`,
`cli:stop`, `disconnect`) or an asynchronous callback from a spawned
pty process (`onData`, `onExit`).  Effects the server performs on the
outside world — socket emissions, writes to a pty's input stream,
resize calls, and kill signals — are accumulated in logs inside the
state so that theorems can speak about exactly which effects a
transition produces.

Process handles are numbered by a fresh counter `nextProc`; the set of
OS-live processes (`liveProcs`) is tracked separately from the registry,
since a process outlives its registry entry until its exit callback
fires.  The pair registered in `procHandlers` records the closure data
(`terminalId`, owning socket) captured by the `onData`/`onExit`
callbacks of each spawned process.
-/

namespace Matat

/-- JavaScript `Map.get`: value of the first entry with the given key. -/
def mapGet {κ α : Type} [DecidableEq κ] (m : List (κ × α)) (k : κ) : Option α :=
  match m with
  | [] => none
  | (k', v') :: rest => if k' = k then some v' else mapGet rest k

/-- JavaScript `Map.set`: update the existing entry in place, else append. -/
def mapSet {κ α : Type} [DecidableEq κ] (m : List (κ × α)) (k : κ) (v : α) :
    List (κ × α) :=
  match m with
  | [] => [(k, v)]
  | (k', v') :: rest => if k' = k then (k, v) :: rest else (k', v') :: mapSet rest k v

/-- JavaScript `Map.delete`: remove the entry with the given key. -/
def mapDelete {κ α : Type} [DecidableEq κ] (m : List (κ × α)) (k : κ) :
    List (κ × α) :=
  m.filter (fun p => !(p.1 = k : Bool))

/-- One entry of the `terminals` map: the pty process handle, the owning
socket (connection) and the creation time (`createdAt: new Date()`),
mirroring the object stored by `createTerminal`. -/
structure TermEntry where
  proc : Nat
  socket : Nat
  createdAt : Nat
deriving DecidableEq, Repr

/-- One entry of the `cliProcesses` map: the CLI kind string, the active
flag and the start time, mirroring the object stored by `startCLI`. -/
structure CLIEntry where
  ty : String
  active : Bool
  startedAt : Nat
deriving DecidableEq, Repr

/-- The `context` object accepted by `sendCLICommand` /
`buildEnrichedPrompt`.  Each field is an optional string; following the
JavaScript truthiness test `if (context.currentFile)` an empty string
behaves exactly like an absent field. -/
structure CLIContext where
  currentFile : Option String
  selectedCode : Option String
  projectInfo : Option String
deriving DecidableEq, Repr

/-- Outbound socket notifications emitted by the session core
(`socket.emit` calls), with their payloads. -/
inductive Event where
  | terminalCreated (id shell cwd : String)
  | terminalOutput (id data : String)
  | terminalExit (id : String) (exitCode : Int) (signal : Option Int)
  | cliStarted (id ty message : String)
  | cliError (message : String) (suggestion : Option String)
  | cliCommandSent (id command ty : String)
  | cliStopped (id ty : String)
deriving DecidableEq, Repr

/-- The server state: the two registry maps, the bookkeeping for spawned
OS processes, and the logs of outward effects (socket events, pty
writes, pty resizes, kill signals) accumulated in order. -/
structure ServerState where
  terminals : List (String × TermEntry)
  cliProcesses : List (String × CLIEntry)
  procHandlers : List (Nat × String × Nat)
  liveProcs : List Nat
  nextProc : Nat
  events : List (Nat × Event)
  writes : List (Nat × String)
  resizeCalls : List (Nat × Nat × Nat)
  kills : List Nat
deriving DecidableEq, Repr

/-- The shell program resolved by `getShell()`; its value depends on the
host platform and environment and is irrelevant to every claim, so it is
fixed here to the posix default. -/
def shellName : String := "bash"

/-- The configured workspace root (`this.workspaceRoot`), used as the
default working directory of a new terminal. -/
def workspaceRoot : String := "workspace"

/-- `terminal_${Date.now()}`: the identifier generated by
`createTerminal` when the caller supplies none, a pure function of the
current clock reading in milliseconds. -/
def genTerminalId (now : Nat) : String :=
  "terminal_" ++ toString now

/-- `createTerminal(socket, data)`.  Resolves the identifier
(`data.terminalId || generated`, so an empty string counts as absent),
spawns a fresh pty process, stores the entry in `terminals` —
overwriting any existing entry for that identifier, with no kill and no
delete of the old process — registers the `onData`/`onExit` closure
data, and emits `terminal:created`. -/
def createTerminal (st : ServerState) (sock : Nat) (dataId : Option String)
    (cwd : Option String) (now : Nat) : ServerState :=
  let terminalId :=
    match dataId with
    | some s => if s = "" then genTerminalId now else s
    | none => genTerminalId now
  let proc := st.nextProc
  { st with
    nextProc := st.nextProc + 1
    liveProcs := st.liveProcs ++ [proc]
    procHandlers := st.procHandlers ++ [(proc, terminalId, sock)]
    terminals := mapSet st.terminals terminalId ⟨proc, sock, now⟩
    events := st.events ++
      [(sock, Event.terminalCreated terminalId shellName (cwd.getD workspaceRoot))] }

/-- The `terminal:input` socket handler: write the bytes to the pty if
the session exists, otherwise do nothing at all. -/
def handleTerminalInput (st : ServerState) (terminalId data : String) :
    ServerState :=
  match mapGet st.terminals terminalId with
  | some t => { st with writes := st.writes ++ [(t.proc, data)] }
  | none => st

/-- The `terminal:resize` socket handler: resize the pty if the session
exists, otherwise do nothing at all. -/
def handleTerminalResize (st : ServerState) (terminalId : String)
    (cols rows : Nat) : ServerState :=
  match mapGet st.terminals terminalId with
  | some t => { st with resizeCalls := st.resizeCalls ++ [(t.proc, cols, rows)] }
  | none => st

/-- The installation suggestion attached to the `cli:error` emitted when
a CLI binary is unavailable, keyed by the kind string. -/
def installSuggestion (ty : String) : String :=
  if ty = "gemini" then "Install with: npm install -g @google/gemini-cli"
  else "Install with: npm install -g @anthropic-ai/claude-cli"

/-- `startCLI(socket, data)`.  If the terminal is missing, emit
`cli:error` "Terminal not found".  Otherwise consult the availability
prober (modelled as the boolean outcome `available` of the asynchronous
`checkCLIAvailability` call): if available, write the launch command
`${type}\r` to the pty, record the overlay entry (kind, active, start
time) and emit `cli:started`; if not, emit `cli:error` with the
installation suggestion. -/
def startCLI (st : ServerState) (sock : Nat) (terminalId ty : String)
    (available : Bool) (now : Nat) : ServerState :=
  match mapGet st.terminals terminalId with
  | none =>
    { st with events := st.events ++ [(sock, Event.cliError "Terminal not found" none)] }
  | some t =>
    if available then
      { st with
        writes := st.writes ++ [(t.proc, ty ++ "\r")]
        cliProcesses := mapSet st.cliProcesses terminalId ⟨ty, true, now⟩
        events := st.events ++
          [(sock, Event.cliStarted terminalId ty (ty ++ " CLI started successfully"))] }
    else
      { st with
        events := st.events ++
          [(sock, Event.cliError (ty ++ " CLI not installed") (some (installSuggestion ty)))] }

/-- `buildEnrichedPrompt(command, context)`: sequentially append the
current-file line, the fenced selected-code block and the project line —
each only when its field passes the JavaScript truthiness test, so an
empty string is skipped — then the raw command. -/
def buildEnrichedPrompt (command : String) (context : CLIContext) : String :=
  let prompt := ""
  let prompt :=
    match context.currentFile with
    | some f => if f = "" then prompt else prompt ++ "📁 Current file: " ++ f ++ "\n"
    | none => prompt
  let prompt :=
    match context.selectedCode with
    | some c =>
      if c = "" then prompt
      else prompt ++ "🎯 Selected code:\n```\n" ++ c ++ "\n```\n\n"
    | none => prompt
  let prompt :=
    match context.projectInfo with
    | some p => if p = "" then prompt else prompt ++ "📂 Project: " ++ p ++ "\n\n"
    | none => prompt
  prompt ++ command

/-- `sendCLICommand(socket, data)`.  If either the terminal or the
overlay entry is missing, emit `cli:error` "CLI not active" and write
nothing; otherwise write the enriched command plus the line terminator
to the pty and emit `cli:command_sent`. -/
def sendCLICommand (st : ServerState) (sock : Nat) (terminalId command : String)
    (context : CLIContext) : ServerState :=
  match mapGet st.terminals terminalId, mapGet st.cliProcesses terminalId with
  | some t, some cli =>
    let enriched := buildEnrichedPrompt command context
    { st with
      writes := st.writes ++ [(t.proc, enriched ++ "\r")]
      events := st.events ++
        [(sock, Event.cliCommandSent terminalId enriched cli.ty)] }
  | some _, none =>
    { st with events := st.events ++ [(sock, Event.cliError "CLI not active" none)] }
  | none, _ =>
    { st with events := st.events ++ [(sock, Event.cliError "CLI not active" none)] }

/-- `stopCLI(socket, data)`.  Nothing happens when no overlay entry
exists.  When one does, a keyboard interrupt byte is written to the pty
if the terminal still exists, the overlay entry is deleted, and
`cli:stopped` is emitted. -/
def stopCLI (st : ServerState) (sock : Nat) (terminalId : String) : ServerState :=
  match mapGet st.cliProcesses terminalId with
  | none => st
  | some cli =>
    let st1 :=
      match mapGet st.terminals terminalId with
      | some t => { st with writes := st.writes ++ [(t.proc, "\x03")] }
      | none => st
    { st1 with
      cliProcesses := mapDelete st1.cliProcesses terminalId
      events := st1.events ++ [(sock, Event.cliStopped terminalId cli.ty)] }

/-- The `onData` callback registered by `createTerminal`: the closure
emits `terminal:output` to the socket captured at creation.  The guard
requires the producing process to still be OS-live and registered. -/
def handleProcData (st : ServerState) (proc : Nat) (data : String) : ServerState :=
  match mapGet st.procHandlers proc with
  | some (terminalId, sock) =>
    if proc ∈ st.liveProcs then
      { st with events := st.events ++ [(sock, Event.terminalOutput terminalId data)] }
    else st
  | none => st

/-- The `onExit` callback registered by `createTerminal`: emit
`terminal:exit` with id, exit code and signal, then delete the
`terminals` entry.  Note the source deletes only the `terminals` entry;
the `cliProcesses` entry for the same identifier is left in place.
The process leaves the OS-live set. -/
def handleProcExit (st : ServerState) (proc : Nat) (exitCode : Int)
    (signal : Option Int) : ServerState :=
  match mapGet st.procHandlers proc with
  | some (terminalId, sock) =>
    if proc ∈ st.liveProcs then
      { st with
        events := st.events ++ [(sock, Event.terminalExit terminalId exitCode signal)]
        terminals := mapDelete st.terminals terminalId
        liveProcs := st.liveProcs.filter (fun q => !(q = proc : Bool)) }
    else st
  | none => st

/-- `cleanup(socket)`: iterate over the `terminals` map and, for every
entry owned by the disconnecting socket, kill its process and delete
both its `terminals` entry and its `cliProcesses` entry.  The loop is
rendered as filters: kills follow iteration (= insertion) order, the
owned entries leave `terminals`, and exactly the overlay entries keyed
by an owned identifier leave `cliProcesses`.  The kill is only a
signal: `liveProcs` is untouched until each process's own exit callback
fires. -/
def cleanup (st : ServerState) (sock : Nat) : ServerState :=
  let owned := st.terminals.filter (fun p => (p.2.socket = sock : Bool))
  { st with
    kills := st.kills ++ owned.map (fun p => p.2.proc)
    terminals := st.terminals.filter (fun p => !(p.2.socket = sock : Bool))
    cliProcesses :=
      st.cliProcesses.filter (fun p => !(owned.any (fun q => (q.1 = p.1 : Bool)))) }

/-- The exit status observed for the probe child process spawned by
`checkCLIAvailability`: either a `close` event carrying an exit code
(`null` when the child was terminated by a signal), or an `error`
event (e.g. the binary does not exist). -/
inductive SpawnOutcome where
  | closed (code : Option Int)
  | errored
deriving DecidableEq, Repr

/-- `checkCLIAvailability(type)`: spawn `type --version` and resolve
`code === 0` on `close`, `false` on `error`; the promise never
rejects. -/
def checkCLIAvailability (ty : String) (outcome : SpawnOutcome) : Bool :=
  match outcome with
  | SpawnOutcome.closed code => code = some 0
  | SpawnOutcome.errored => false

/-- One message processed by the server's event loop: an inbound socket
event or an asynchronous pty callback.  Environment-determined data
(clock reading, availability outcome, exit status) travels in the
message. -/
inductive Msg where
  | create (sock : Nat) (dataId : Option String) (cwd : Option String) (now : Nat)
  | input (terminalId data : String)
  | resize (terminalId : String) (cols rows : Nat)
  | cliStart (sock : Nat) (terminalId ty : String) (available : Bool) (now : Nat)
  | cliCommand (sock : Nat) (terminalId command : String) (context : CLIContext)
  | cliStop (sock : Nat) (terminalId : String)
  | disconnect (sock : Nat)
  | procData (proc : Nat) (data : String)
  | procExit (proc : Nat) (exitCode : Int) (signal : Option Int)
deriving DecidableEq, Repr

/-- Dispatch one message to its handler, exactly as
`setupSocketHandlers` wires the socket events and `createTerminal`
wires the pty callbacks (`disconnect` invokes `cleanup`). -/
def step (st : ServerState) (msg : Msg) : ServerState :=
  match msg with
  | Msg.create sock dataId cwd now => createTerminal st sock dataId cwd now
  | Msg.input terminalId data => handleTerminalInput st terminalId data
  | Msg.resize terminalId cols rows => handleTerminalResize st terminalId cols rows
  | Msg.cliStart sock terminalId ty available now =>
    startCLI st sock terminalId ty available now
  | Msg.cliCommand sock terminalId command context =>
    sendCLICommand st sock terminalId command context
  | Msg.cliStop sock terminalId => stopCLI st sock terminalId
  | Msg.disconnect sock => cleanup st sock
  | Msg.procData proc data => handleProcData st proc data
  | Msg.procExit proc exitCode signal => handleProcExit st proc exitCode signal

/-- The state of a freshly constructed server: empty maps, no spawned
processes, empty effect logs. -/
def initState : ServerState :=
  { terminals := []
    cliProcesses := []
    procHandlers := []
    liveProcs := []
    nextProc := 0
    events := []
    writes := []
    resizeCalls := []
    kills := [] }

/-- Run the event loop over a list of messages from the initial state. -/
def run (msgs : List Msg) : ServerState :=
  msgs.foldl step initState

/-- From the spec's enriched-command description: the current-file line,
emitted exactly when a current file is present in the context
("present" meaning a non-empty value was supplied — the JavaScript
truthiness test of the source). -/
def currentFileSegment (context : CLIContext) : String :=
  match context.currentFile with
  | some f => if f = "" then "" else "📁 Current file: " ++ f ++ "\n"
  | none => ""

/-- From the spec's enriched-command description: the fenced
selected-code block, emitted exactly when selected code is present. -/
def selectedCodeSegment (context : CLIContext) : String :=
  match context.selectedCode with
  | some c => if c = "" then "" else "🎯 Selected code:\n```\n" ++ c ++ "\n```\n\n"
  | none => ""

/-- From the spec's enriched-command description: the
project-descriptor line, emitted exactly when a project descriptor is
present. -/
def projectSegment (context : CLIContext) : String :=
  match context.projectInfo with
  | some p => if p = "" then "" else "📂 Project: " ++ p ++ "\n\n"
  | none => ""

/-- The notifications `stopCLI` can append for an overlay lookup
result: nothing when no overlay entry exists, a single `cli:stopped`
(never an error) when one does. -/
def cliStoppedNotices (sock : Nat) (terminalId : String) (co : Option CLIEntry) :
    List (Nat × Event) :=
  match co with
  | none => []
  | some cli => [(sock, Event.cliStopped terminalId cli.ty)]

/-- Trace for C1: the same caller-chosen identifier is used for two
create requests while the first session is still live. -/
def c1trace : List Msg :=
  [Msg.create 7 (some "t") none 0, Msg.create 7 (some "t") none 1]

/-- Trace for C2: a terminal is created, a CLI overlay is started in
it, then the underlying process exits. -/
def c2trace : List Msg :=
  [Msg.create 7 (some "t") none 0, Msg.cliStart 7 "t" "gemini" true 1,
   Msg.procExit 0 0 none]

/-- Trace for C4: a terminal is created and its connection
disconnects; no exit callback has fired yet. -/
def c4trace : List Msg :=
  [Msg.create 7 (some "t") none 0, Msg.disconnect 7]

/-- Trace for C7: a terminal is created, a CLI overlay is started,
the process exits (leaving the overlay entry stale), and the session
identifier no longer denotes a live session. -/
def c7trace : List Msg :=
  [Msg.create 7 (some "t") none 0, Msg.cliStart 7 "t" "gemini" true 1,
   Msg.procExit 0 0 none]

/-- Trace for C9: two create requests with the identifier omitted
arrive within the same millisecond (`Date.now()` returns 5 for both). -/
def c9trace : List Msg :=
  [Msg.create 7 none none 5, Msg.create 8 none none 5]

/-- Witness state: one live terminal "t" owned by socket 7. -/
def stOneTerminal : ServerState :=
  run [Msg.create 7 (some "t") none 0]

/-- Witness state: terminal "a" owned by socket 7 and terminal "b"
owned by socket 8, with a CLI overlay active on "b". -/
def stTwoOwners : ServerState :=
  run [Msg.create 7 (some "a") none 0, Msg.create 8 (some "b") none 1,
       Msg.cliStart 8 "b" "gemini" true 2]

/-! ## Lemmas about the JavaScript `Map` embedding -/

theorem mapGet_mapSet_self {κ α : Type} [DecidableEq κ]
    (m : List (κ × α)) (k : κ) (v : α) :
    mapGet (mapSet m k v) k = some v := by
  induction m with
  | nil => simp [mapSet, mapGet]
  | cons hd tl ih =>
    rcases hd with ⟨k', v'⟩
    by_cases h : k' = k
    · simp [mapSet, mapGet, h]
    · simp [mapSet, mapGet, h, ih]

theorem mapGet_mem {κ α : Type} [DecidableEq κ]
    {m : List (κ × α)} {k : κ} {v : α} (h : mapGet m k = some v) :
    (k, v) ∈ m := by
  induction m with
  | nil => simp [mapGet] at h
  | cons hd tl ih =>
    rcases hd with ⟨k', v'⟩
    by_cases hk : k' = k
    · simp [mapGet, hk] at h
      simp [hk, h]
    · simp [mapGet, hk] at h
      exact List.mem_cons_of_mem _ (ih h)

theorem mapGet_none_keys {κ α : Type} [DecidableEq κ]
    {m : List (κ × α)} {k : κ} (h : mapGet m k = none) :
    ∀ p ∈ m, p.1 ≠ k := by
  induction m with
  | nil => simp
  | cons hd tl ih =>
    rcases hd with ⟨k', v'⟩
    by_cases hk : k' = k
    · simp [mapGet, hk] at h
    · simp [mapGet, hk] at h
      intro p hp
      rcases List.mem_cons.mp hp with hp | hp
      · rw [hp]; exact hk
      · exact ih h p hp

theorem mapGet_filter_some {κ α : Type} [DecidableEq κ]
    {m : List (κ × α)} {k : κ} {v : α} (f : κ × α → Bool)
    (h : mapGet m k = some v) (hf : f (k, v) = true) :
    mapGet (m.filter f) k = some v := by
  induction m with
  | nil => simp [mapGet] at h
  | cons hd tl ih =>
    rcases hd with ⟨k', v'⟩
    by_cases hk : k' = k
    · simp [mapGet, hk] at h
      subst hk
      subst h
      simp [List.filter_cons, hf, mapGet]
    · simp [mapGet, hk] at h
      rcases hfh : f (k', v') with _ | _
      · simp [List.filter_cons, hfh, ih h]
      · simp [List.filter_cons, hfh, mapGet, hk, ih h]

theorem mapGet_filter_congr {κ α : Type} [DecidableEq κ]
    {m : List (κ × α)} {k : κ} (f : κ × α → Bool)
    (hf : ∀ v, f (k, v) = true) :
    mapGet (m.filter f) k = mapGet m k := by
  induction m with
  | nil => simp [mapGet]
  | cons hd tl ih =>
    rcases hd with ⟨k', v'⟩
    by_cases hk : k' = k
    · subst hk
      simp [List.filter_cons, hf v', mapGet]
    · rcases hfh : f (k', v') with _ | _
      · simp [List.filter_cons, hfh, ih, mapGet, hk]
      · simp [List.filter_cons, hfh, mapGet, hk, ih]

theorem mapGet_none_filter {κ α : Type} [DecidableEq κ]
    {m : List (κ × α)} {k : κ} (f : κ × α → Bool)
    (h : mapGet m k = none) :
    mapGet (m.filter f) k = none := by
  induction m with
  | nil => simp [mapGet]
  | cons hd tl ih =>
    rcases hd with ⟨k', v'⟩
    by_cases hk : k' = k
    · simp [mapGet, hk] at h
    · simp [mapGet, hk] at h
      rcases hfh : f (k', v') with _ | _
      · simp [List.filter_cons, hfh, ih h]
      · simp [List.filter_cons, hfh, mapGet, hk, ih h]

theorem mapGet_none_of_keys {κ α : Type} [DecidableEq κ]
    {m : List (κ × α)} {k : κ} (h : k ∉ m.map Prod.fst) :
    mapGet m k = none := by
  induction m with
  | nil => simp [mapGet]
  | cons hd tl ih =>
    rcases hd with ⟨k', v'⟩
    rw [List.map_cons, List.mem_cons] at h
    push_neg at h
    have hk : k' ≠ k := fun he => h.1 he.symm
    simp [mapGet, hk, ih h.2]

theorem mapGet_filter_none {κ α : Type} [DecidableEq κ]
    {m : List (κ × α)} {k : κ} {v : α} (f : κ × α → Bool)
    (hnd : (m.map Prod.fst).Nodup)
    (h : mapGet m k = some v) (hf : f (k, v) = false) :
    mapGet (m.filter f) k = none := by
  induction m with
  | nil => simp [mapGet] at h
  | cons hd tl ih =>
    rcases hd with ⟨k', v'⟩
    rw [List.map_cons] at hnd
    rcases List.nodup_cons.mp hnd with ⟨hnotin, hnd'⟩
    by_cases hk : k' = k
    · simp [mapGet, hk] at h
      subst hk
      subst h
      have htl : mapGet tl k' = none := mapGet_none_of_keys hnotin
      simp [List.filter_cons, hf]
      exact mapGet_none_filter f htl
    · simp [mapGet, hk] at h
      rcases hfh : f (k', v') with _ | _
      · simp [List.filter_cons, hfh, ih hnd' h]
      · simp [List.filter_cons, hfh, mapGet, hk, ih hnd' h]

theorem mapDelete_of_none {κ α : Type} [DecidableEq κ]
    {m : List (κ × α)} {k : κ} (h : mapGet m k = none) :
    mapDelete m k = m := by
  apply List.filter_eq_self.mpr
  intro p hp
  simpa using mapGet_none_keys h p hp

theorem keysNodup_val_eq {κ α : Type} [DecidableEq κ]
    {m : List (κ × α)} {k : κ} {a b : α}
    (hnd : (m.map Prod.fst).Nodup) (ha : (k, a) ∈ m) (hb : (k, b) ∈ m) :
    a = b := by
  induction m with
  | nil => simp at ha
  | cons hd tl ih =>
    rcases hd with ⟨k', v'⟩
    rw [List.map_cons] at hnd
    rcases List.nodup_cons.mp hnd with ⟨hnotin, hnd'⟩
    rcases List.mem_cons.mp ha with ha | ha
    · rcases List.mem_cons.mp hb with hb | hb
      · injection ha with ha1 ha2
        injection hb with hb1 hb2
        rw [ha2, hb2]
      · injection ha with ha1 ha2
        exact absurd (List.mem_map.mpr ⟨(k, b), hb, ha1⟩) hnotin
    · rcases List.mem_cons.mp hb with hb | hb
      · injection hb with hb1 hb2
        exact absurd (List.mem_map.mpr ⟨(k, a), ha, hb1⟩) hnotin
      · exact ih hnd' ha hb

theorem filter_not_filter {α : Type} (f : α → Bool) (l : List α) :
    (l.filter (fun a => !(f a))).filter f = [] := by
  induction l with
  | nil => simp
  | cons hd tl ih =>
    rcases hf : f hd with _ | _
    · simp [List.filter_cons, hf, ih]
    · simp [List.filter_cons, hf, ih]

theorem data_empty : ("" : String).data = [] := rfl

/-! ## The claims -/

/-- C3: processing the disconnect of connection `s` sends exactly one
termination signal per session the connection owns — the kill log grows
by exactly the owned entries' process handles, in registry order — and
leaves no session entry owned by `s` and no overlay entry keyed by an
identifier that was owned by `s`. -/
theorem c3_disconnect_terminates_owned (st : ServerState) (s : Nat) :
    (cleanup st s).kills
        = st.kills
            ++ (st.terminals.filter (fun p => (p.2.socket = s : Bool))).map
                (fun p => p.2.proc)
      ∧ (cleanup st s).kills.length
          = st.kills.length
              + (st.terminals.filter (fun p => (p.2.socket = s : Bool))).length
      ∧ (cleanup st s).terminals.filter (fun p => (p.2.socket = s : Bool)) = []
      ∧ (cleanup st s).cliProcesses.filter
          (fun p => (st.terminals.filter (fun q => (q.2.socket = s : Bool))).any
            (fun q => (q.1 = p.1 : Bool))) = [] := by
  refine ⟨rfl, ?_, ?_, ?_⟩
  · simp [cleanup]
  · exact filter_not_filter _ st.terminals
  · exact filter_not_filter _ st.cliProcesses

/-- C10 (frame effect of disconnect): cleanup of connection `s` leaves
every session entry owned by a different connection unchanged and in
place, and likewise leaves the overlay entry of every session owned by
a different connection untouched.  The key-uniqueness hypothesis holds
in every state the registry can reach, since entries are only ever
added through `mapSet`. -/
theorem c10_cleanup_frame (st : ServerState) (s : Nat) (id : String)
    (e : TermEntry)
    (hnd : (st.terminals.map Prod.fst).Nodup)
    (h : mapGet st.terminals id = some e) (hs : e.socket ≠ s) :
    mapGet (cleanup st s).terminals id = some e
      ∧ mapGet (cleanup st s).cliProcesses id = mapGet st.cliProcesses id := by
  constructor
  · apply mapGet_filter_some _ h
    simp [hs]
  · apply mapGet_filter_congr
    intro v
    have hany :
        (st.terminals.filter (fun q => (q.2.socket = s : Bool))).any
          (fun q => (q.1 = id : Bool)) = false := by
      rw [List.any_eq_false]
      rintro ⟨k', e'⟩ hq
      rcases List.mem_filter.mp hq with ⟨hmem, hsock⟩
      simp only [decide_eq_true_eq] at hsock
      simp only [Bool.not_eq_true, decide_eq_false_iff_not]
      intro hk
      subst hk
      exact hs (by rw [keysNodup_val_eq hnd (mapGet_mem h) hmem]; exact hsock)
    simpa using hany

/-- C4 counterexample: after `create` then `disconnect`, the kill
signal has been sent (`kills = [0]`) and the session entry is already
gone, yet no `terminal:exit` notification has fired — the only event
ever emitted is `terminal:created`.  The registry entry was therefore
removed optimistically at signal time, not in the exit handler. -/
theorem c4_counterexample :
    (run c4trace).kills = [0]
      ∧ mapGet (run c4trace).terminals "t" = none
      ∧ (run c4trace).events
          = [(7, Event.terminalCreated "t" shellName workspaceRoot)] := by
  refine ⟨rfl, by decide, rfl⟩

/-- C4 amended: termination through `cleanup` removes the session's
registry entry in the same step that sends the kill signal, without
waiting for the exit notification (no exit event is emitted by the
cleanup step itself; the entry is gone immediately). -/
theorem c4_amended (st : ServerState) (s : Nat) (id : String) (e : TermEntry)
    (hnd : (st.terminals.map Prod.fst).Nodup)
    (h : mapGet st.terminals id = some e) (hs : e.socket = s) :
    mapGet (cleanup st s).terminals id = none
      ∧ e.proc ∈ (cleanup st s).kills
      ∧ (cleanup st s).events = st.events := by
  refine ⟨?_, ?_, rfl⟩
  · apply mapGet_filter_none _ hnd h
    simp [hs]
  · show e.proc ∈ st.kills ++ _
    apply List.mem_append_right
    apply List.mem_map.mpr
    refine ⟨(id, e), ?_, rfl⟩
    apply List.mem_filter.mpr
    exact ⟨mapGet_mem h, by simp [hs]⟩

/-- C1 counterexample: two create requests reuse the live identifier
"t".  No termination signal is ever sent (`kills = []`), both spawned
processes remain live, and both processes' exit closures are registered
for the same session identifier — two live process handles for one
identifier, the old one orphaned. -/
theorem c1_counterexample :
    (run c1trace).kills = []
      ∧ (run c1trace).liveProcs = [0, 1]
      ∧ (run c1trace).procHandlers = [(0, "t", 7), (1, "t", 7)]
      ∧ (run c1trace).terminals = [("t", ⟨1, 7, 1⟩)] := by
  refine ⟨rfl, rfl, rfl, rfl⟩

/-- C1 amended: a create request whose identifier already denotes a
live session does not terminate the old process and does not remove its
entry first: it spawns a fresh process, overwrites the registry entry
in place, and leaves the old process live (and orphaned), so two live
process handles can be associated with the same identifier. -/
theorem c1_amended (st : ServerState) (sock : Nat) (id : String)
    (e : TermEntry) (cwd : Option String) (now : Nat)
    (h : mapGet st.terminals id = some e) (hne : id ≠ "")
    (hl : e.proc ∈ st.liveProcs) :
    (createTerminal st sock (some id) cwd now).kills = st.kills
      ∧ (createTerminal st sock (some id) cwd now).liveProcs
          = st.liveProcs ++ [st.nextProc]
      ∧ e.proc ∈ (createTerminal st sock (some id) cwd now).liveProcs
      ∧ st.nextProc ∈ (createTerminal st sock (some id) cwd now).liveProcs
      ∧ mapGet (createTerminal st sock (some id) cwd now).terminals id
          = some ⟨st.nextProc, sock, now⟩
      ∧ (createTerminal st sock (some id) cwd now).procHandlers
          = st.procHandlers ++ [(st.nextProc, id, sock)] := by
  refine ⟨?_, ?_, ?_, ?_, ?_, ?_⟩
  · simp [createTerminal]
  · simp [createTerminal, hne]
  · simp [createTerminal]
    exact Or.inl hl
  · simp [createTerminal]
  · simp [createTerminal, hne, mapGet_mapSet_self]
  · simp [createTerminal, hne]

/-- C2 counterexample: create "t", start a CLI overlay in it, then let
the process exit.  The exit notification fires and the session entry is
removed, but the CLI overlay entry for "t" is still present — an
overlay entry exists for a session that does not. -/
theorem c2_counterexample :
    mapGet (run c2trace).terminals "t" = none
      ∧ mapGet (run c2trace).cliProcesses "t" = some ⟨"gemini", true, 1⟩
      ∧ (run c2trace).events
          = [(7, Event.terminalCreated "t" shellName workspaceRoot),
             (7, Event.cliStarted "t" "gemini" "gemini CLI started successfully"),
             (7, Event.terminalExit "t" 0 none)] := by
  refine ⟨by decide, by decide, rfl⟩

/-- C2 amended: when the process reports exit, the registry emits the
exit notification with the session id, exit code and signal and removes
the session entry, but it does not remove the CLI overlay entry: the
`cliProcesses` map is left exactly as it was. -/
theorem c2_amended (st : ServerState) (proc : Nat) (id : String) (sock : Nat)
    (exitCode : Int) (signal : Option Int)
    (hh : mapGet st.procHandlers proc = some (id, sock))
    (hl : proc ∈ st.liveProcs) :
    (handleProcExit st proc exitCode signal).events
        = st.events ++ [(sock, Event.terminalExit id exitCode signal)]
      ∧ (handleProcExit st proc exitCode signal).terminals
          = mapDelete st.terminals id
      ∧ (handleProcExit st proc exitCode signal).cliProcesses
          = st.cliProcesses := by
  refine ⟨?_, ?_, ?_⟩ <;> simp [handleProcExit, hh, hl]

/-- C5: the enriched command is the concatenation, in fixed order, of
the current-file line, the fenced selected-code block and the
project-descriptor line — each segment emitted exactly when its context
field is present (a non-empty value, per the source's truthiness test)
— followed by exactly the raw command; and at the concrete input of the
claim the written text is those four parts in that order. -/
theorem c5_enriched_prompt_order :
    (∀ (command : String) (context : CLIContext),
        buildEnrichedPrompt command context
          = currentFileSegment context ++ selectedCodeSegment context
              ++ projectSegment context ++ command)
      ∧ buildEnrichedPrompt "explain" ⟨some "a.ts", some "x=1", some "P"⟩
          = "📁 Current file: a.ts\n" ++ "🎯 Selected code:\n```\nx=1\n```\n\n"
              ++ "📂 Project: P\n\n" ++ "explain" := by
  constructor
  · intro command context
    rcases context with ⟨cf, sc, pi⟩
    cases cf <;> cases sc <;> cases pi <;>
      simp only [buildEnrichedPrompt, currentFileSegment, selectedCodeSegment,
        projectSegment] <;>
      (try split_ifs) <;>
      (apply String.ext) <;>
      simp only [String.data_append, data_empty, List.append_assoc,
        List.nil_append, List.append_nil]
  · decide

/-- C6: a `cli:command` request for an identifier with no live session
or no overlay entry (no prior successful start) emits exactly the
`CLI not active` error notification, writes nothing to any process
input stream, and leaves both registry maps unchanged. -/
theorem c6_command_without_cli (st : ServerState) (sock : Nat)
    (terminalId command : String) (context : CLIContext)
    (h : mapGet st.terminals terminalId = none
        ∨ mapGet st.cliProcesses terminalId = none) :
    (sendCLICommand st sock terminalId command context).events
        = st.events ++ [(sock, Event.cliError "CLI not active" none)]
      ∧ (sendCLICommand st sock terminalId command context).writes = st.writes
      ∧ (sendCLICommand st sock terminalId command context).terminals
          = st.terminals
      ∧ (sendCLICommand st sock terminalId command context).cliProcesses
          = st.cliProcesses := by
  have hred : sendCLICommand st sock terminalId command context
      = { st with
            events := st.events ++ [(sock, Event.cliError "CLI not active" none)] } := by
    rcases h with h | h
    · simp [sendCLICommand, h]
    · cases ht : mapGet st.terminals terminalId with
      | none => simp [sendCLICommand, ht]
      | some t => simp [sendCLICommand, ht, h]
  rw [hred]
  exact ⟨rfl, rfl, rfl, rfl⟩

/-- C7 counterexample: after the process of session "t" has exited, the
identifier no longer denotes a live session, yet a stale overlay entry
remains; `stopCLI` on this dead identifier is not a no-op — it removes
the overlay entry and emits a `cli:stopped` notification. -/
theorem c7_counterexample :
    mapGet (run c7trace).terminals "t" = none
      ∧ (run c7trace).cliProcesses = [("t", ⟨"gemini", true, 1⟩)]
      ∧ (stopCLI (run c7trace) 7 "t").cliProcesses = []
      ∧ (stopCLI (run c7trace) 7 "t").events
          = (run c7trace).events ++ [(7, Event.cliStopped "t" "gemini")] := by
  refine ⟨by decide, rfl, rfl, rfl⟩

/-- C7 amended: on an identifier with no live session, `write` and
`resize` are pure no-ops, and `stop` never throws and never emits an
error notification; `stop` is a pure no-op when no overlay entry exists
for the identifier, but when a stale overlay entry remains it deletes
that entry and emits a single `cli:stopped` notification (never an
error), still writing nothing to any process. -/
theorem c7_amended (st : ServerState) (sock : Nat) (terminalId data : String)
    (cols rows : Nat)
    (ht : mapGet st.terminals terminalId = none) :
    handleTerminalInput st terminalId data = st
      ∧ handleTerminalResize st terminalId cols rows = st
      ∧ (stopCLI st sock terminalId).writes = st.writes
      ∧ (stopCLI st sock terminalId).kills = st.kills
      ∧ (stopCLI st sock terminalId).terminals = st.terminals
      ∧ (stopCLI st sock terminalId).cliProcesses
          = mapDelete st.cliProcesses terminalId
      ∧ (stopCLI st sock terminalId).events
          = st.events
              ++ cliStoppedNotices sock terminalId
                  (mapGet st.cliProcesses terminalId) := by
  cases hc : mapGet st.cliProcesses terminalId with
  | none =>
    refine ⟨?_, ?_, ?_, ?_, ?_, ?_, ?_⟩ <;>
      simp [handleTerminalInput, handleTerminalResize, stopCLI, ht, hc,
        cliStoppedNotices, mapDelete_of_none hc]
  | some cli =>
    refine ⟨?_, ?_, ?_, ?_, ?_, ?_, ?_⟩ <;>
      simp [handleTerminalInput, handleTerminalResize, stopCLI, ht, hc,
        cliStoppedNotices]

/-- C8: the availability probe resolves to true exactly when the
version-query child process closes with exit status zero, and resolves
to false — it never rejects, the promise has no failure path — on a
spawn error (in particular for every nonexistent binary name, whose
spawn raises the error event) and on every non-zero or null exit
status. -/
theorem c8_availability_iff_zero_exit :
    (∀ (ty : String) (outcome : SpawnOutcome),
        checkCLIAvailability ty outcome = true
          ↔ outcome = SpawnOutcome.closed (some 0))
      ∧ ∀ (ty : String),
          checkCLIAvailability ty SpawnOutcome.errored = false := by
  constructor
  · intro ty outcome
    cases outcome with
    | closed code => simp [checkCLIAvailability]
    | errored => simp [checkCLIAvailability]
  · intro ty
    rfl

/-- C9 counterexample: after the first identifier-less create at
millisecond 5, session `terminal_5` is live; a second identifier-less
create in the same millisecond generates the very same identifier —
both `terminal:created` notifications carry `terminal_5`, the second
entry overwrites the first, and the first process is orphaned. -/
theorem c9_counterexample :
    mapGet (run [Msg.create 7 none none 5]).terminals "terminal_5"
        = some ⟨0, 7, 5⟩
      ∧ (run c9trace).events
          = [(7, Event.terminalCreated "terminal_5" shellName workspaceRoot),
             (8, Event.terminalCreated "terminal_5" shellName workspaceRoot)]
      ∧ (run c9trace).terminals = [("terminal_5", ⟨1, 8, 5⟩)]
      ∧ (run c9trace).liveProcs = [0, 1] := by
  refine ⟨by decide, by decide, by decide, by decide⟩

/-- C9 amended: the generated identifier is `terminal_` followed by the
current clock reading in milliseconds — a pure function of the clock,
registered and announced as such — so it is unique among live sessions
only when creates fall in distinct milliseconds; creates within the
same millisecond receive the same identifier. -/
theorem c9_amended (st : ServerState) (sock : Nat) (cwd : Option String)
    (now : Nat) :
    (createTerminal st sock none cwd now).events
        = st.events
            ++ [(sock, Event.terminalCreated (genTerminalId now) shellName
                  (cwd.getD workspaceRoot))]
      ∧ mapGet (createTerminal st sock none cwd now).terminals (genTerminalId now)
          = some ⟨st.nextProc, sock, now⟩
      ∧ genTerminalId now = "terminal_" ++ toString now := by
  refine ⟨rfl, ?_, rfl⟩
  simp [createTerminal, mapGet_mapSet_self]

/-! ## Witnesses -/

/-- Witness for `c1_amended`: instantiated at the one-terminal state. -/
theorem c1_amended_witness :
    mapGet stOneTerminal.terminals "t" = some ⟨0, 7, 0⟩
      ∧ "t" ≠ ""
      ∧ (0 : Nat) ∈ stOneTerminal.liveProcs
      ∧ ((createTerminal stOneTerminal 9 (some "t") none 3).kills
            = stOneTerminal.kills
          ∧ (createTerminal stOneTerminal 9 (some "t") none 3).liveProcs
              = stOneTerminal.liveProcs ++ [stOneTerminal.nextProc]
          ∧ (0 : Nat) ∈ (createTerminal stOneTerminal 9 (some "t") none 3).liveProcs
          ∧ stOneTerminal.nextProc
              ∈ (createTerminal stOneTerminal 9 (some "t") none 3).liveProcs
          ∧ mapGet (createTerminal stOneTerminal 9 (some "t") none 3).terminals "t"
              = some ⟨stOneTerminal.nextProc, 9, 3⟩
          ∧ (createTerminal stOneTerminal 9 (some "t") none 3).procHandlers
              = stOneTerminal.procHandlers
                  ++ [(stOneTerminal.nextProc, "t", 9)]) :=
  ⟨by decide, by decide, by decide,
    c1_amended stOneTerminal 9 "t" ⟨0, 7, 0⟩ none 3 (by decide) (by decide)
      (by decide)⟩

/-- Witness for `c2_amended`: instantiated at the one-terminal state. -/
theorem c2_amended_witness :
    mapGet stOneTerminal.procHandlers 0 = some ("t", 7)
      ∧ (0 : Nat) ∈ stOneTerminal.liveProcs
      ∧ ((handleProcExit stOneTerminal 0 0 none).events
            = stOneTerminal.events ++ [(7, Event.terminalExit "t" 0 none)]
          ∧ (handleProcExit stOneTerminal 0 0 none).terminals
              = mapDelete stOneTerminal.terminals "t"
          ∧ (handleProcExit stOneTerminal 0 0 none).cliProcesses
              = stOneTerminal.cliProcesses) :=
  ⟨by decide, by decide,
    c2_amended stOneTerminal 0 "t" 7 0 none (by decide) (by decide)⟩

/-- Witness for `c4_amended`: instantiated at the one-terminal state. -/
theorem c4_amended_witness :
    (stOneTerminal.terminals.map Prod.fst).Nodup
      ∧ mapGet stOneTerminal.terminals "t" = some ⟨0, 7, 0⟩
      ∧ (⟨0, 7, 0⟩ : TermEntry).socket = 7
      ∧ (mapGet (cleanup stOneTerminal 7).terminals "t" = none
          ∧ (0 : Nat) ∈ (cleanup stOneTerminal 7).kills
          ∧ (cleanup stOneTerminal 7).events = stOneTerminal.events) :=
  ⟨by decide, by decide, by decide,
    c4_amended stOneTerminal 7 "t" ⟨0, 7, 0⟩ (by decide) (by decide) (by decide)⟩

/-- Witness for `c6_command_without_cli`: instantiated at the initial
state, where no session exists. -/
theorem c6_command_without_cli_witness :
    (mapGet initState.terminals "t" = none
        ∨ mapGet initState.cliProcesses "t" = none)
      ∧ ((sendCLICommand initState 1 "t" "explain" ⟨none, none, none⟩).events
            = initState.events ++ [(1, Event.cliError "CLI not active" none)]
          ∧ (sendCLICommand initState 1 "t" "explain" ⟨none, none, none⟩).writes
              = initState.writes
          ∧ (sendCLICommand initState 1 "t" "explain" ⟨none, none, none⟩).terminals
              = initState.terminals
          ∧ (sendCLICommand initState 1 "t" "explain"
                ⟨none, none, none⟩).cliProcesses
              = initState.cliProcesses) :=
  ⟨Or.inl (by decide),
    c6_command_without_cli initState 1 "t" "explain" ⟨none, none, none⟩
      (Or.inl (by decide))⟩

/-- Witness for `c7_amended`: instantiated at the stale-overlay state
reached by the C7 trace. -/
theorem c7_amended_witness :
    mapGet (run c7trace).terminals "t" = none
      ∧ (handleTerminalInput (run c7trace) "t" "ls" = run c7trace
          ∧ handleTerminalResize (run c7trace) "t" 80 24 = run c7trace
          ∧ (stopCLI (run c7trace) 7 "t").writes = (run c7trace).writes
          ∧ (stopCLI (run c7trace) 7 "t").kills = (run c7trace).kills
          ∧ (stopCLI (run c7trace) 7 "t").terminals = (run c7trace).terminals
          ∧ (stopCLI (run c7trace) 7 "t").cliProcesses
              = mapDelete (run c7trace).cliProcesses "t"
          ∧ (stopCLI (run c7trace) 7 "t").events
              = (run c7trace).events
                  ++ cliStoppedNotices 7 "t"
                      (mapGet (run c7trace).cliProcesses "t")) :=
  ⟨by decide, c7_amended (run c7trace) 7 "t" "ls" 80 24 (by decide)⟩

/-- Witness for `c10_cleanup_frame`: instantiated at the two-owner
state; disconnecting socket 7 leaves socket 8's session and overlay
untouched. -/
theorem c10_cleanup_frame_witness :
    (stTwoOwners.terminals.map Prod.fst).Nodup
      ∧ mapGet stTwoOwners.terminals "b" = some ⟨1, 8, 1⟩
      ∧ (⟨1, 8, 1⟩ : TermEntry).socket ≠ 7
      ∧ (mapGet (cleanup stTwoOwners 7).terminals "b" = some ⟨1, 8, 1⟩
          ∧ mapGet (cleanup stTwoOwners 7).cliProcesses "b"
              = mapGet stTwoOwners.cliProcesses "b") :=
  ⟨by decide, by decide, by decide,
    c10_cleanup_frame stTwoOwners 7 "b" ⟨1, 8, 1⟩ (by decide) (by decide)
      (by decide)⟩

end Matat
